import Mathlib

/-!
Shallow embedding of the settings-validation subsystem of the
SWARM-RDS-Client repository (src/core/swarm.py and
src/SWARMRDS/core/vehicle_profile_validator.py), together with theorems
settling the frozen claims about it.

Conventions of the embedding:
* JSON/Python runtime values are modelled by the inductive type PyVal.
  Python dicts are association lists in insertion order (Python dicts
  iterate in insertion order); floats are modelled as rationals.
* Python exceptions are modelled by the type PyExc; code that raises is
  compiled to the Except monad.  A try/except block that prints and
  returns False is compiled with the catchToFalse combinator.
* Diagnostic message texts are abbreviated to short stable tags; the
  control flow (which check raises, and in which order) follows the
  source line by line.
* print and time.sleep calls are side effects with no influence on the
  result and are dropped.
* The external descriptor documents (SupportedScenarios.json,
  SupportedEnvironments.json, SupportedSoftwareModules.json) are inputs
  the validator loads; they are passed in through the ClientCtx record,
  together with the _local flag of the client.
-/

namespace SwarmSpec

/-- A Python/JSON runtime value.  Python booleans are a distinct
constructor because type(True).__name__ is bool, while isinstance(True, int)
is still true; both behaviours are modelled below. -/
inductive PyVal where
  | int (n : Int)
  | float (q : Rat)
  | str (s : String)
  | bool (b : Bool)
  | pynone
  | list (xs : List PyVal)
  | dict (entries : List (String × PyVal))

/-- type(v).__name__ for the modelled values. -/
def PyVal.typeName : PyVal → String
  | .int _ => "int"
  | .float _ => "float"
  | .str _ => "str"
  | .bool _ => "bool"
  | .pynone => "NoneType"
  | .list _ => "list"
  | .dict _ => "dict"

/-- isinstance(v, int): true for int and for bool (bool subclasses int). -/
def PyVal.isinstanceInt : PyVal → Bool
  | .int _ => true
  | .bool _ => true
  | _ => false

def PyVal.isinstanceFloat : PyVal → Bool
  | .float _ => true
  | _ => false

def PyVal.isinstanceStr : PyVal → Bool
  | .str _ => true
  | _ => false

def PyVal.isinstanceBool : PyVal → Bool
  | .bool _ => true
  | _ => false

def PyVal.isinstanceDict : PyVal → Bool
  | .dict _ => true
  | _ => false

/-- The numeric value of a Python number (int, float or bool), if any. -/
def PyVal.asNum? : PyVal → Option Rat
  | .int n => some (n : Rat)
  | .float q => some q
  | .bool b => some (if b then 1 else 0)
  | _ => none

mutual
/-- Python ==.  Numbers compare by value across int/float/bool; lists
compare elementwise; dicts are compared entrywise in insertion order (the
validator never compares two dicts whose insertion orders differ). -/
def pyEq : PyVal → PyVal → Bool
  | .str a, .str b => a == b
  | .pynone, .pynone => true
  | .list as, .list bs => pyEqList as bs
  | .dict as, .dict bs => pyEqDict as bs
  | a, b =>
    match a.asNum?, b.asNum? with
    | some x, some y => x == y
    | _, _ => false

def pyEqList : List PyVal → List PyVal → Bool
  | [], [] => true
  | a :: as, b :: bs => pyEq a b && pyEqList as bs
  | _, _ => false

def pyEqDict : List (String × PyVal) → List (String × PyVal) → Bool
  | [], [] => true
  | (k, a) :: as, (l, b) :: bs => k == l && pyEq a b && pyEqDict as bs
  | _, _ => false
end

/-- Python exception, carrying a short tag identifying the raise site. -/
inductive PyExc where
  | assertionError (tag : String)
  | valueError (tag : String)
  | keyError (key : String)
  | typeError (tag : String)
  | attributeError (tag : String)
  deriving DecidableEq, Repr

def PyExc.isAssertionError : PyExc → Bool
  | .assertionError _ => true
  | _ => false

def PyExc.isValueError : PyExc → Bool
  | .valueError _ => true
  | _ => false

/-- assert b, raising AssertionError tagged with the raise site. -/
def pyAssert (b : Bool) (tag : String) : Except PyExc Unit :=
  if b then .ok () else .error (.assertionError tag)

/-- Compiles a try block whose except clauses print a message and
return False: exceptions selected by p are turned into an ok false
result, every other exception keeps propagating. -/
def catchToFalse (p : PyExc → Bool) (m : Except PyExc Unit) : Except PyExc Bool :=
  match m with
  | .ok _ => .ok true
  | .error e => if p e then .ok false else .error e

/-- d[k] on a dict association list. -/
def pyDictGet (entries : List (String × PyVal)) (k : String) : Except PyExc PyVal :=
  match entries.find? (fun e => e.1 == k) with
  | some e => .ok e.2
  | none => .error (.keyError k)

/-- v[k] for a string key: KeyError when absent, TypeError when v is not
a dict. -/
def PyVal.getItem : PyVal → String → Except PyExc PyVal
  | .dict es, k => pyDictGet es k
  | v, _ => .error (.typeError (v.typeName ++ " not subscriptable"))

/-- list(v.keys()): AttributeError when v is not a dict. -/
def PyVal.pyKeys : PyVal → Except PyExc (List String)
  | .dict es => .ok (es.map Prod.fst)
  | v => .error (.attributeError (v.typeName ++ " has no keys"))

/-- v.items(): AttributeError when v is not a dict. -/
def PyVal.pyItems : PyVal → Except PyExc (List (String × PyVal))
  | .dict es => .ok es
  | v => .error (.attributeError (v.typeName ++ " has no items"))

/-- x in v for dicts (key membership) and lists (elementwise ==).  The
validator only ever tests membership in dicts and lists. -/
def pyIn (x : PyVal) : PyVal → Except PyExc Bool
  | .dict es => .ok (es.any (fun e => pyEq x (.str e.1)))
  | .list xs => .ok (xs.any (fun y => pyEq x y))
  | v => .error (.typeError (v.typeName ++ " not a container"))

/-- len(v) for lists, dicts and strings. -/
def pyLen : PyVal → Except PyExc Nat
  | .list xs => .ok xs.length
  | .dict es => .ok es.length
  | .str s => .ok s.length
  | v => .error (.typeError (v.typeName ++ " has no len"))

/-- v[i] for a nonnegative integer index on a list. -/
def pySubscriptNat (v : PyVal) (i : Nat) : Except PyExc PyVal :=
  match v with
  | .list xs =>
    match xs.get? i with
    | some x => .ok x
    | none => .error (.keyError "index out of range")
  | .dict _ => .error (.keyError "int key")
  | w => .error (.typeError (w.typeName ++ " not subscriptable"))

/-- v[-1] on a list. -/
def pySubscriptLast (v : PyVal) : Except PyExc PyVal :=
  match v with
  | .list xs =>
    match xs.getLast? with
    | some x => .ok x
    | none => .error (.keyError "index out of range")
  | .dict _ => .error (.keyError "int key")
  | w => .error (.typeError (w.typeName ++ " not subscriptable"))

/-- Iterating a value in a for loop: lists yield their elements, dicts
their keys. -/
def pyIterate : PyVal → Except PyExc (List PyVal)
  | .list xs => .ok xs
  | .dict es => .ok (es.map (fun e => PyVal.str e.1))
  | v => .error (.typeError (v.typeName ++ " not iterable"))

/-- v < b for a numeric literal b: TypeError when v is not a number. -/
def pyLtQ (v : PyVal) (b : Rat) : Except PyExc Bool :=
  match v.asNum? with
  | some q => .ok (decide (q < b))
  | none => .error (.typeError "comparison")

def pyGtQ (v : PyVal) (b : Rat) : Except PyExc Bool :=
  match v.asNum? with
  | some q => .ok (decide (b < q))
  | none => .error (.typeError "comparison")

def pyLeQ (v : PyVal) (b : Rat) : Except PyExc Bool :=
  match v.asNum? with
  | some q => .ok (decide (q ≤ b))
  | none => .error (.typeError "comparison")

def pyGeQ (v : PyVal) (b : Rat) : Except PyExc Bool :=
  match v.asNum? with
  | some q => .ok (decide (b ≤ q))
  | none => .error (.typeError "comparison")

/-- v < w between two runtime values. -/
def pyLtV (v w : PyVal) : Except PyExc Bool :=
  match v.asNum?, w.asNum? with
  | some a, some b => .ok (decide (a < b))
  | _, _ => .error (.typeError "comparison")

def pyGtV (v w : PyVal) : Except PyExc Bool :=
  match v.asNum?, w.asNum? with
  | some a, some b => .ok (decide (b < a))
  | _, _ => .error (.typeError "comparison")

def pyGeV (v w : PyVal) : Except PyExc Bool :=
  match v.asNum?, w.asNum? with
  | some a, some b => .ok (decide (b ≤ a))
  | _, _ => .error (.typeError "comparison")

def pyLeV (v w : PyVal) : Except PyExc Bool :=
  match v.asNum?, w.asNum? with
  | some a, some b => .ok (decide (a ≤ b))
  | _, _ => .error (.typeError "comparison")

/-- float(v) on a number. -/
def pyFloat (v : PyVal) : Except PyExc Rat :=
  match v.asNum? with
  | some q => .ok q
  | none => .error (.typeError "float conversion")

/-- Runs an action for every element of a list, stopping at the first
exception (the shape of a Python for loop over raising checks). -/
def eachM : List α → (α → Except PyExc Unit) → Except PyExc Unit
  | [], _ => .ok ()
  | a :: as, f => do
    f a
    eachM as f

/-- The same loop over the (key, value) pairs of a dict. -/
def eachKV : List (String × PyVal) → (String → PyVal → Except PyExc Unit) → Except PyExc Unit
  | [], _ => .ok ()
  | (k, v) :: es, f => do
    f k v
    eachKV es f

/-- Lexicographic code-point comparison of two character lists — the
order Python sorted() applies to strings. -/
def charListLe : List Char → List Char → Bool
  | [], _ => true
  | _ :: _, [] => false
  | a :: as, b :: bs =>
    if a.toNat < b.toNat then true
    else if b.toNat < a.toNat then false
    else charListLe as bs

/-- sorted(xs) for the string key lists the validator sorts: a stable
sort under the code-point order, as in Python. -/
def sortStrings (xs : List String) : List String :=
  xs.insertionSort (fun a b => charListLe a.data b.data)

/-- d[k] where the key is itself a runtime value (used when the code
subscripts with a user-supplied name). -/
def pyGetV (d : PyVal) (k : PyVal) : Except PyExc PyVal :=
  match k with
  | .str s => d.getItem s
  | _ => .error (.keyError "non string key")

/-- The external read-only documents the validator consults, plus the
_local flag of the client (set from the server IP address).  They stand
for settings/SupportedScenarios.json (its Scenarios entry),
settings/SupportedEnvironments.json (its Environments entry) and
core/SupportedSoftwareModules.json (its SupportedModules entry). -/
structure ClientCtx where
  scenarios : List PyVal
  environments : List (String × PyVal)
  supportedModules : List (String × PyVal)
  isLocal : Bool

/-- swarm.py validate_scenario_name: the name must be a string contained
in the Scenarios list; every exception (including a missing descriptor
file) is caught inside the function and turned into False. -/
def validate_scenario_name (ctx : ClientCtx) (name : PyVal) : Bool :=
  match (do
    pyAssert name.isinstanceStr "scenario name not a string"
    pyIn name (.list ctx.scenarios) : Except PyExc Bool) with
  | .ok b => b
  | .error _ => false

/-- swarm.py validate_environment_name: membership of the name among the
keys of the Environments dict; exceptions are caught inside. -/
def validate_environment_name (ctx : ClientCtx) (name : PyVal) : Bool :=
  match (do
    pyAssert name.isinstanceStr "map name not a string"
    pyIn name (.dict ctx.environments) : Except PyExc Bool) with
  | .ok b => b
  | .error _ => false

/-- swarm.py validate_level_is_supported: looks up Levels of the
environment and asserts membership.  On AssertionError the source prints
and falls off the end (returning None, which is falsy); on any other
exception it returns False; both are modelled as false. -/
def validate_level_is_supported (ctx : ClientCtx) (envName levelName : PyVal) : Bool :=
  match (do
    let env ← pyGetV (.dict ctx.environments) envName
    let levels ← env.getItem "Levels"
    let b ← pyIn levelName levels
    pyAssert b "level missing" : Except PyExc Unit) with
  | .ok _ => true
  | .error _ => false

/-- swarm.py validate_publishing_Rate: the rate must be a float inside
the closed interval given by the per-sensor bounds; violations raise. -/
def validate_publishing_Rate (v : PyVal) (lo hi : Rat) : Except PyExc Unit := do
  pyAssert v.isinstanceFloat "publishing rate type"
  let hiB ← pyGtQ v hi
  let loB ← pyLtQ v lo
  if hiB || loB then .error (.assertionError "publishing rate range") else pure ()

/-- swarm.py validate_camera_stream_settings: the agent must have a
Cameras sensor section and the referenced camera name must be one of its
keys; violations raise AssertionError. -/
def validate_camera_stream_settings (cameraName : PyVal) (sensors : PyVal) :
    Except PyExc Bool := do
  let ks ← sensors.pyKeys
  if !(ks.contains "Cameras") then
    .error (.assertionError "cameras section missing")
  else do
    let cams ← sensors.getItem "Cameras"
    let cks ← cams.pyKeys
    if !(cks.any (fun k => pyEq cameraName (.str k))) then
      .error (.assertionError "camera not listed")
    else
      pure true

/-- swarm.py _validate_camera_subscription: the Subscribes list of the
module must contain a dict entry whose Image key equals the camera name;
otherwise an AssertionError is raised. -/
def validate_camera_subscription (cameraName : PyVal) (moduleParams : PyVal) :
    Except PyExc Unit := do
  let subs ← moduleParams.getItem "Subscribes"
  let items ← pyIterate subs
  let found := items.any (fun sub =>
    match sub with
    | .dict es =>
      match pyDictGet es "Image" with
      | .ok v => pyEq cameraName v
      | .error _ => false
    | _ => false)
  pyAssert found "camera not subscribed"

/-- swarm.py _validate_option_in_env_supported: the option name must be
a key of the Options dict of the selected environment and the supplied
value a member of that entry's ValidOptions list. -/
def validate_option_in_env_supported (ctx : ClientCtx) (optionName : String)
    (optionVal : PyVal) (envName : PyVal) : Except PyExc Unit := do
  let env ← pyGetV (.dict ctx.environments) envName
  let valid_options ← env.getItem "Options"
  let n ← pyLen valid_options
  if n == 0 then .error (.assertionError "env has no options")
  else do
    let ks ← valid_options.pyKeys
    if !(ks.contains optionName) then .error (.assertionError "env option name")
    else do
      let entry ← valid_options.getItem optionName
      let entries ← entry.getItem "ValidOptions"
      let mem ← pyIn optionVal entries
      pyAssert mem "env option value"

/-- swarm.py validate_environment_options: when an Options section is
present, validate every option of it against the environment. -/
def validate_environment_options (ctx : ClientCtx) (envOptions : PyVal) :
    Except PyExc Unit := do
  let ks ← envOptions.pyKeys
  if ks.contains "Options" then do
    let envName ← envOptions.getItem "Name"
    let opts ← envOptions.getItem "Options"
    let items ← opts.pyItems
    eachKV items (fun onm ov => validate_option_in_env_supported ctx onm ov envName)
  else pure ()

/-- Acceptance of ipaddress.ip_address on dotted-quad IPv4 strings: four
dot-separated decimal parts, no empty part, no leading zero, each at
most 255.  (The stdlib parser also accepts IPv6 text; no claim depends
on that and it is omitted.) -/
def ip_address_valid (s : String) : Bool :=
  let parts := s.splitOn "."
  parts.length == 4 && parts.all (fun p =>
    p ≠ "" && p.all Char.isDigit && (p == "0" || !(p.startsWith "0")) &&
      (p.toNat?.getD 256) ≤ 255)

/-- Element checks shared by the two textually identical list-parameter
loops of validate_software_modules (lines 1364-1375 and 1426-1437):
length must equal the rule's length entry, every element's type name
must equal field_data_type and numeric elements must lie inside
field_range.  (On the mismatch path the source builds a message from a
name that is not always bound, which would surface as a NameError; the
observable effect — an exception aborting validation — is the same.) -/
def paramListCheck (rule : PyVal) (value : PyVal) : Except PyExc Unit := do
  let n ← pyLen value
  let rlen ← rule.getItem "length"
  if !(pyEq (.int (n : Int)) rlen) then .error (.assertionError "param list length")
  else do
    let xs ← pyIterate value
    eachM xs (fun item => do
      let fdt ← rule.getItem "field_data_type"
      if !(pyEq (.str item.typeName) fdt) then .error (.assertionError "param list type")
      else if item.typeName == "float" || item.typeName == "int" then do
        let fr ← rule.getItem "field_range"
        let lo ← pySubscriptNat fr 0
        let ltB ← pyLtV item lo
        if ltB then .error (.assertionError "param list range")
        else do
          let hi ← pySubscriptNat fr 1
          let gtB ← pyGtV item hi
          if gtB then .error (.assertionError "param list range") else pure ())

/-- The dict-parameter loop of the Algorithm Parameters branch
(swarm.py lines 1376-1389).  Per entry: when valid_fields is nonempty
and its last element is the wildcard the entry is skipped; otherwise the
membership test is applied to the VALUE item (the source tests item, not
key, although its message speaks of the key), then the value type and
numeric range are checked. -/
def algoParamsDictCheck (rule : PyVal) (value : PyVal) : Except PyExc Unit := do
  let items ← value.pyItems
  eachKV items (fun _key item => do
    let vf ← rule.getItem "valid_fields"
    let n ← pyLen vf
    let wild ← (if n > 0 then do
        let lastv ← pySubscriptLast vf
        pure (pyEq lastv (.str "*"))
      else pure false)
    if wild then pure ()
    else do
      let mem ← pyIn item vf
      if !mem then .error (.assertionError "algo dict entry")
      else do
        let fdt ← rule.getItem "field_data_type"
        if !(pyEq (.str item.typeName) fdt) then .error (.assertionError "algo dict type")
        else if item.typeName == "float" || item.typeName == "int" then do
          let fr ← rule.getItem "field_range"
          let lo ← pySubscriptNat fr 0
          let ltB ← pyLtV item lo
          if ltB then .error (.assertionError "algo dict range")
          else do
            let hi ← pySubscriptNat fr 1
            let gtB ← pyGtV item hi
            if gtB then .error (.assertionError "algo dict range") else pure ()
        else pure ())

/-- The dict-parameter loop of the module-level Parameters branch
(swarm.py lines 1438-1451).  Per entry: when the rule's field_data_type
equals the wildcard the entry is skipped; otherwise the KEY must be a
member of valid_fields, then the value type and numeric range are
checked. -/
def moduleParamsDictCheck (rule : PyVal) (value : PyVal) : Except PyExc Unit := do
  let items ← value.pyItems
  eachKV items (fun key item => do
    let fdt ← rule.getItem "field_data_type"
    if pyEq fdt (.str "*") then pure ()
    else do
      let vf ← rule.getItem "valid_fields"
      let mem ← pyIn (.str key) vf
      if !mem then .error (.assertionError "module dict key")
      else do
        if !(pyEq (.str item.typeName) fdt) then .error (.assertionError "module dict type")
        else if item.typeName == "float" || item.typeName == "int" then do
          let fr ← rule.getItem "field_range"
          let lo ← pySubscriptNat fr 0
          let ltB ← pyLtV item lo
          if ltB then .error (.assertionError "module dict range")
          else do
            let hi ← pySubscriptNat fr 1
            let gtB ← pyGtV item hi
            if gtB then .error (.assertionError "module dict range") else pure ()
        else pure ())

/-- The numeric range check applied to a scalar parameter value against
the rule's range entry (lines 1390-1393 and 1452-1455). -/
def paramRangeCheck (rule : PyVal) (value : PyVal) (tag : String) : Except PyExc Unit := do
  let r ← rule.getItem "range"
  let lo ← pySubscriptNat r 0
  let ltB ← pyLtV value lo
  if ltB then .error (.assertionError tag)
  else do
    let hi ← pySubscriptNat r 1
    let gtB ← pyGtV value hi
    if gtB then .error (.assertionError tag) else pure ()

/-- Lines 1350-1353 overwrite the descriptor's valid_entries for the
output_type parameter in place with a fixed two-element list whenever
the client is not local; since every later read of that entry yields the
same constant, the in-place write is modelled functionally. -/
def effectiveValidEntries (ctx : ClientCtx) (paramName : String) (rule : PyVal) :
    Except PyExc PyVal :=
  if paramName == "output_type" && !ctx.isLocal then
    .ok (.list [.str "images", .str "video"])
  else rule.getItem "valid_entries"

/-- The wildcard test of line 1359: the valid-entries list is nonempty
and its first element is the star string. -/
def validEntriesWildcard (entries : PyVal) : Except PyExc Bool := do
  let n ← pyLen entries
  if n > 0 then do
    let h ← pySubscriptNat entries 0
    pure (pyEq h (.str "*"))
  else pure false

/-- The string-valued branch for one Algorithm parameter (lines
1348-1363): camera_name triggers the two cross-field camera checks
first; then, unless the wildcard test succeeds (the continue of line
1360 — the remaining list/dict/numeric checks of the parameter cannot
fire for a string value, so returning normally is equivalent), the value
must be a member of the effective valid-entries list. -/
def algoStringParamCheck (ctx : ClientCtx) (sensors settings : PyVal)
    (paramName : String) (rule : PyVal) (value : PyVal) : Except PyExc Unit := do
  (if paramName == "camera_name" then do
    let _ ← validate_camera_stream_settings value sensors
    validate_camera_subscription value settings
   else pure ())
  let entries ← effectiveValidEntries ctx paramName rule
  let wild ← validEntriesWildcard entries
  if wild then pure ()
  else do
    let mem ← pyIn value entries
    if !mem then .error (.assertionError "algo param enum") else pure ()

/-- One parameter of the Algorithm Parameters section (lines 1340-1393):
the name must be a key of the resolved ValidParameters rules, the value
type must equal the rule's type, then the type-directed checks run. -/
def checkAlgoParam (ctx : ClientCtx) (sensors settings : PyVal) (validParams : PyVal)
    (paramName : String) (value : PyVal) : Except PyExc Unit := do
  let ks ← validParams.pyKeys
  if !(ks.contains paramName) then .error (.assertionError "algo param unknown")
  else do
    let rule ← validParams.getItem paramName
    let rtype ← rule.getItem "type"
    if !(pyEq (.str value.typeName) rtype) then .error (.assertionError "algo param type")
    else do
      (if value.typeName == "str" then
        algoStringParamCheck ctx sensors settings paramName rule value
       else pure ())
      (if value.typeName == "list" then paramListCheck rule value else pure ())
      (if value.typeName == "dict" then algoParamsDictCheck rule value else pure ())
      (if value.typeName == "float" || value.typeName == "int" then
        paramRangeCheck rule value "algo param range"
       else pure ())

/-- One parameter of the module-level Parameters section (lines
1417-1455); same shape but the dict branch uses the module variant and
there is no string-enumeration check. -/
def checkModuleParam (validParams : PyVal) (paramName : String) (value : PyVal) :
    Except PyExc Unit := do
  let ks ← validParams.pyKeys
  if !(ks.contains paramName) then .error (.assertionError "module param unknown")
  else do
    let rule ← validParams.getItem paramName
    let rtype ← rule.getItem "type"
    if !(pyEq (.str value.typeName) rtype) then .error (.assertionError "module param type")
    else do
      (if value.typeName == "list" then paramListCheck rule value else pure ())
      (if value.typeName == "dict" then moduleParamsDictCheck rule value else pure ())
      (if value.typeName == "float" || value.typeName == "int" then
        paramRangeCheck rule value "module param range"
       else pure ())

/-- The Publishes/Subscribes branch (lines 1407-1416): string entries
must be supported message types; dict entries with an Image key trigger
the camera-existence check for that camera name. -/
def checkMessagesSetting (ctx : ClientCtx) (sensors setting : PyVal) :
    Except PyExc Unit := do
  let valid_messages ← pyDictGet ctx.supportedModules "ValidMessageTypes"
  let msgs ← pyIterate setting
  eachM msgs (fun message => do
    if message.isinstanceStr then do
      let mem ← pyIn message valid_messages
      if !mem then .error (.assertionError "invalid message type") else pure ()
    else if message.isinstanceDict then do
      let mks ← message.pyKeys
      if mks.contains "Image" then do
        let cn ← message.getItem "Image"
        let _ ← validate_camera_stream_settings cn sensors
        pure ()
      else pure ()
    else pure ())

/-- Dispatch over the subsections of the Algorithm setting (lines
1335-1406): States is skipped, Parameters, InputArgs and ReturnValues
are validated against the per-class descriptor entries, anything else
passes silently. -/
def checkAlgoSetting (ctx : ClientCtx) (sensors settings : PyVal) (moduleName : String)
    (className : PyVal) (algoSettingName : String) (algoSetting : PyVal) :
    Except PyExc Unit :=
  if algoSettingName == "States" then pure ()
  else if algoSettingName == "Parameters" then do
    let modEntry ← pyDictGet ctx.supportedModules moduleName
    let vpAll ← modEntry.getItem "ValidParameters"
    let validParams ← pyGetV vpAll className
    let items ← algoSetting.pyItems
    eachKV items (fun pn v => checkAlgoParam ctx sensors settings validParams pn v)
  else if algoSettingName == "InputArgs" then do
    let modEntry ← pyDictGet ctx.supportedModules moduleName
    let vaAll ← modEntry.getItem "ValidInputArgs"
    let validArgs ← pyGetV vaAll className
    let vals ← pyIterate algoSetting
    eachM vals (fun v => do
      let mem ← pyIn v validArgs
      if !mem then .error (.assertionError "invalid input arg") else pure ())
  else if algoSettingName == "ReturnValues" then do
    let modEntry ← pyDictGet ctx.supportedModules moduleName
    let vrAll ← modEntry.getItem "ValidReturnValues"
    let validReturns ← pyGetV vrAll className
    let vals ← pyIterate algoSetting
    eachM vals (fun v => do
      let mem ← pyIn v validReturns
      if !mem then .error (.assertionError "invalid return value") else pure ())
  else pure ()

/-- One module-level setting (lines 1330-1455): its name must be in the
global ValidModuleParameters list, then the Algorithm, message and
Parameters branches run as applicable. -/
def checkModuleSetting (ctx : ClientCtx) (sensors settings : PyVal) (moduleName : String)
    (className : PyVal) (settingName : String) (setting : PyVal) : Except PyExc Unit := do
  let vmp ← pyDictGet ctx.supportedModules "ValidModuleParameters"
  let mem ← pyIn (.str settingName) vmp
  if !mem then .error (.assertionError "module setting name")
  else do
    (if settingName == "Algorithm" then do
      let items ← setting.pyItems
      eachKV items (fun asn a => checkAlgoSetting ctx sensors settings moduleName className asn a)
     else pure ())
    (if settingName == "Publishes" || settingName == "Subscribes" then
      checkMessagesSetting ctx sensors setting
     else pure ())
    (if settingName == "Parameters" then do
      let modEntry ← pyDictGet ctx.supportedModules moduleName
      let validParams ← modEntry.getItem "ValidModuleParameters"
      let items ← setting.pyItems
      eachKV items (fun pn v => checkModuleParam validParams pn v)
     else pure ())

/-- One software module (lines 1314-1455): the module name must be a key
of the descriptor, Algorithm Level must be an int among 1, 2, 3; Level 3
modules are custom user code and skip every further check (the continue
of line 1324); otherwise the class name must be valid and every setting
is validated. -/
def checkModule (ctx : ClientCtx) (sensors : PyVal) (moduleName : String)
    (settings : PyVal) : Except PyExc Unit := do
  if !((ctx.supportedModules.map Prod.fst).contains moduleName) then
    .error (.assertionError "module unsupported")
  else do
    let algo ← settings.getItem "Algorithm"
    let algoLevel ← algo.getItem "Level"
    if !(algoLevel.isinstanceInt &&
        ([PyVal.int 1, .int 2, .int 3].any (fun x => pyEq algoLevel x))) then
      .error (.assertionError "module level")
    else if pyEq algoLevel (.int 3) then pure ()
    else do
      let modEntry ← pyDictGet ctx.supportedModules moduleName
      let validClassNames ← modEntry.getItem "ValidClassNames"
      let className ← algo.getItem "ClassName"
      let cmem ← pyIn className validClassNames
      if !cmem then .error (.assertionError "class name invalid")
      else do
        let items ← settings.pyItems
        eachKV items (fun sn s => checkModuleSetting ctx sensors settings moduleName className sn s)

/-- swarm.py validate_software_modules: loads the supported-modules
descriptor (carried by ctx) and validates every module of the agent;
any violation raises and is caught by the caller. -/
def validate_software_modules (ctx : ClientCtx) (modules : PyVal) (sensors : PyVal) :
    Except PyExc Bool := do
  let items ← modules.pyItems
  eachKV items (fun mn s => checkModule ctx sensors mn s)
  pure true

/-- int(v) on a number: truncation toward zero. -/
def pyInt (v : PyVal) : Except PyExc Int :=
  match v.asNum? with
  | some q => .ok (if 0 ≤ q then q.floor else q.ceil)
  | none => .error (.typeError "int conversion")

/-- Compiles the recurring pattern
if not isinstance(x, float) or (x < lo or x > hi): raise AssertionError. -/
def floatRangeCheck (v : PyVal) (lo hi : Rat) (tag : String) : Except PyExc Unit :=
  match v with
  | .float q =>
    if decide (q < lo) || decide (hi < q) then .error (.assertionError tag) else .ok ()
  | _ => .error (.assertionError tag)

/-- The per-instance checks shared verbatim by the Barometers,
Odometers, Magnetometers, GPS, AirSpeed and IMU branches of the Sensors
section (swarm.py lines 895-1019 and 1057-1081), which differ only in
the sensor kind named in the messages and the publishing-rate upper
bound: at least one instance (a vacuous check placed inside the loop, as
in the source), exactly the Enabled/Method/PublishingRate key set,
Method must be the string Colosseum, and the rate must be a float in
[1, rateMax].  (The Eabled branch reproduces a source typo and can never
fire, since the exact key-set check admits only Enabled.) -/
def checkBasicSensor (rateMax : Rat) (sensorSettings : PyVal) : Except PyExc Unit := do
  let insts ← sensorSettings.pyItems
  eachKV insts (fun _name opts => do
    let ks ← sensorSettings.pyKeys
    pyAssert (!(ks.length < 1)) "sensor count"
    let oks ← opts.pyKeys
    pyAssert (sortStrings oks == sortStrings ["Enabled", "Method", "PublishingRate"])
      "sensor sections"
    let oitems ← opts.pyItems
    eachKV oitems (fun k v => do
      (if k == "Method" then do
        let mem ← pyIn v (.list [.str "Colosseum"])
        pyAssert (v.isinstanceStr && mem) "sensor method"
       else pure ())
      (if k == "Eabled" then pyAssert v.isinstanceBool "sensor enabled" else pure ())
      (if k == "PublishingRate" then validate_publishing_Rate v 1 rateMax else pure ())))

/-- The Settings subsection of one camera (lines 856-893). -/
def checkCameraSettingsSub (cameraSettings : PyVal) : Except PyExc Unit := do
  let sks ← cameraSettings.pyKeys
  pyAssert (sortStrings sks ==
      sortStrings ["ImageType", "Width", "Height", "FOV_Degrees", "FramesPerSecond"])
    "camera settings sections"
  let sitems ← cameraSettings.pyItems
  eachKV sitems (fun ck cv => do
    (if ck != "ImageType" then
      pyAssert (cv.isinstanceFloat || cv.isinstanceInt) "camera setting type"
     else pure ())
    if ck == "Width" then do
      let q ← pyFloat cv
      if decide ((1280 : Rat) < q) || decide (q < 640) then
        .error (.assertionError "camera width")
      else pure ()
    else if ck == "Height" then do
      let q ← pyFloat cv
      if decide ((720 : Rat) < q) || decide (q < 480) then
        .error (.assertionError "camera height")
      else pure ()
    else if ck == "FOV_Degrees" then do
      let q ← pyFloat cv
      if decide ((180 : Rat) < q) || decide (q < 10) then
        .error (.assertionError "camera fov")
      else pure ()
    else if ck == "FramesPerSecond" then do
      let q ← pyFloat cv
      if decide ((30 : Rat) < q) || decide (q < 1) then
        .error (.assertionError "camera fps")
      else pure ()
    else if ck == "ImageType" then do
      pyAssert cv.isinstanceStr "image type str"
      let mem ← pyIn cv (.list [.str "Scene", .str "Segmentation", .str "Depth"])
      pyAssert mem "image type value"
    else pure ())

/-- The Cameras branch of the Sensors section (lines 824-893). -/
def checkCamerasSensor (sensorSettings : PyVal) : Except PyExc Unit := do
  let insts ← sensorSettings.pyItems
  eachKV insts (fun _cname copts => do
    let ks ← sensorSettings.pyKeys
    pyAssert (!(ks.length < 1)) "camera count"
    let oks ← copts.pyKeys
    pyAssert (sortStrings oks == sortStrings
        ["Enabled", "PublishPose", "X", "Y", "Z", "Settings", "Roll", "Pitch", "Yaw"])
      "camera sections"
    let items ← copts.pyItems
    eachKV items (fun k v => do
      (if k == "X" || k == "Y" || k == "Z" then
        floatRangeCheck v (-50) 50 "camera position"
       else pure ())
      (if k == "Yaw" || k == "Pitch" || k == "Roll" then
        floatRangeCheck v (-360) 360 "camera rotation"
       else if k == "Settings" then checkCameraSettingsSub v
       else pure ())))

/-- The Distance branch of the Sensors section (lines 1020-1056): the
MinDistance and MaxDistance bounds are validated as an ordered pair
against each other (min must be a float in [0.2, MaxDistance) and max a
float in (MinDistance, 1000]). -/
def checkDistanceSensor (sensorSettings : PyVal) : Except PyExc Unit := do
  let insts ← sensorSettings.pyItems
  eachKV insts (fun _dn dopts => do
    let ks ← sensorSettings.pyKeys
    pyAssert (!(ks.length < 1)) "distance count"
    let oks ← dopts.pyKeys
    pyAssert (sortStrings oks == sortStrings
        ["Enabled", "Method", "X", "Y", "Z", "Roll", "Pitch", "Yaw", "PublishingRate",
          "MinDistance", "MaxDistance"])
      "distance sections"
    let items ← dopts.pyItems
    eachKV items (fun k v => do
      (if k == "X" || k == "Y" || k == "Z" then
        floatRangeCheck v (-50) 50 "distance position"
       else pure ())
      (if k == "Yaw" || k == "Pitch" || k == "Roll" then
        floatRangeCheck v (-360) 360 "distance rotation"
       else pure ())
      (if k == "MinDistance" then
        if !v.isinstanceFloat then .error (.assertionError "distance min")
        else do
          let ltB ← pyLtQ v (1/5)
          if ltB then .error (.assertionError "distance min")
          else do
            let mx ← dopts.getItem "MaxDistance"
            let geB ← pyGeV v mx
            if geB then .error (.assertionError "distance min") else pure ()
       else pure ())
      (if k == "MaxDistance" then
        if !v.isinstanceFloat then .error (.assertionError "distance max")
        else do
          let gtB ← pyGtQ v 1000
          if gtB then .error (.assertionError "distance max")
          else do
            let mn ← dopts.getItem "MinDistance"
            let leB ← pyLeV v mn
            if leB then .error (.assertionError "distance max") else pure ()
       else pure ())
      (if k == "PublishingRate" then validate_publishing_Rate v 1 20 else pure ())))

/-- The Settings subsection of one LiDAR sensor (lines 1111-1153).  Each
key present must be one of the valid section names (MinDistance and
MaxDistance are not among them), every non-DataFrame value must be a
float or int, and each named parameter is checked only against its own
absolute bounds.  The NumberOfChannels comparison is transcribed exactly
as in the source (value greater than 6 OR value less than 32), as is the
RotationsPerSecond comparison (int greater than 5 OR int less than 20). -/
def checkLidarSettings (lidarSettings : PyVal) : Except PyExc Unit := do
  let items ← lidarSettings.pyItems
  eachKV items (fun k v => do
    (if !(["Range", "NumberOfChannels", "RotationsPerSecond", "PointsPerSecond",
          "VerticalFOVUpper", "VerticalFOVLower", "HorizontalFOVStart",
          "HorizontalFOVEnd", "DataFrame"].contains k) then
      .error (.assertionError "lidar settings key")
     else pure ())
    (if k != "DataFrame" then
      pyAssert (v.isinstanceFloat || v.isinstanceInt) "lidar setting type"
     else pure ())
    if k == "Range" then do
      let q ← pyFloat v
      if decide ((250 : Rat) < q) || decide (q < 1/5) then
        .error (.assertionError "lidar range")
      else pure ()
    else if k == "NumberOfChannels" then do
      let gtB ← pyGtQ v 6
      if gtB then .error (.assertionError "lidar channels")
      else do
        let ltB ← pyLtQ v 32
        if ltB then .error (.assertionError "lidar channels") else pure ()
    else if k == "RotationsPerSecond" then do
      let n ← pyInt v
      if decide ((5 : Int) < n) then .error (.assertionError "lidar rotations")
      else do
        let n2 ← pyInt v
        if decide (n2 < 20) then .error (.assertionError "lidar rotations") else pure ()
    else if k == "PointsPerSecond" then do
      let q ← pyFloat v
      if decide ((1000000 : Rat) < q) || decide (q < 10000) then
        .error (.assertionError "lidar points")
      else pure ()
    else if k == "VerticalFOVUpper" then do
      let q ← pyFloat v
      if decide ((90 : Rat) < q) || decide (q < -85) then
        .error (.assertionError "lidar vfov upper")
      else pure ()
    else if k == "VerticalFOVLower" then do
      let q ← pyFloat v
      if decide (q < (-90 : Rat)) || decide ((85 : Rat) < q) then
        .error (.assertionError "lidar vfov lower")
      else pure ()
    else if k == "HorizontalFOVStart" then do
      let q ← pyFloat v
      if decide ((-5 : Rat) < q) || decide (q < -60) then
        .error (.assertionError "lidar hfov start")
      else pure ()
    else if k == "HorizontalFOVEnd" then do
      let q ← pyFloat v
      if decide ((60 : Rat) < q) || decide (q < 5) then
        .error (.assertionError "lidar hfov end")
      else pure ()
    else pure ())

/-- The LiDAR branch of the Sensors section (lines 1082-1153). -/
def checkLidarSensor (sensorSettings : PyVal) : Except PyExc Unit := do
  let insts ← sensorSettings.pyItems
  eachKV insts (fun _ln lopts => do
    let ks ← sensorSettings.pyKeys
    pyAssert (!(ks.length < 1)) "lidar count"
    let oks ← lopts.pyKeys
    pyAssert (sortStrings oks == sortStrings
        ["Enabled", "Method", "X", "Y", "Z", "Settings", "Roll", "Pitch", "Yaw",
          "PublishingRate", "Hardware"])
      "lidar sections"
    let items ← lopts.pyItems
    eachKV items (fun k v => do
      (if k == "X" || k == "Y" || k == "Z" then
        floatRangeCheck v (-50) 50 "lidar position"
       else pure ())
      (if k == "Yaw" || k == "Pitch" || k == "Roll" then
        floatRangeCheck v (-360) 360 "lidar rotation"
       else pure ())
      (if k == "PublishingRate" then validate_publishing_Rate v 1 30
       else if k == "Settings" then checkLidarSettings v
       else pure ())))

/-- The Sensors section of one agent (lines 813-1153): the PX4
co-requisite sensors are demanded first, then each listed sensor type is
dispatched to its branch. -/
def checkSensorsSection (sf : List (String × PyVal)) (agent : String) (sect : PyVal) :
    Except PyExc Unit := do
  let agents ← pyDictGet sf "Agents"
  let agentOpts ← agents.getItem agent
  let ap ← agentOpts.getItem "AutoPilot"
  (if pyEq ap (.str "PX4") then do
    let listed ← agentOpts.getItem "Sensors"
    let lks ← listed.pyKeys
    pyAssert (lks.contains "IMU" && lks.contains "Magnetometers" &&
        lks.contains "Barometers")
      "px4 sensors"
   else pure ())
  let items ← sect.pyItems
  eachKV items (fun sensorType ss => do
    (if !(["Cameras", "LiDAR", "IMU", "GPS", "Barometers", "AirSpeed", "Odometers",
          "Magnetometers", "Distance"].contains sensorType) then
      .error (.assertionError "unsupported sensor")
     else pure ())
    (if sensorType == "Cameras" then checkCamerasSensor ss
     else if sensorType == "Barometers" then checkBasicSensor 20 ss
     else if sensorType == "Odometers" then checkBasicSensor 50 ss
     else if sensorType == "Magnetometers" then checkBasicSensor 20 ss
     else if sensorType == "GPS" then checkBasicSensor 20 ss
     else if sensorType == "AirSpeed" then checkBasicSensor 20 ss
     else if sensorType == "Distance" then checkDistanceSensor ss
     else if sensorType == "IMU" then checkBasicSensor 150 ss
     else if sensorType == "LiDAR" then checkLidarSensor ss
     else pure ()))

/-- The VehicleOptions section of one agent (lines 770-797). -/
def checkVehicleOptions (sect : PyVal) : Except PyExc Unit := do
  if !sect.isinstanceDict then .error (.assertionError "vehicle options type")
  else do
    let items ← sect.pyItems
    eachKV items (fun k v => do
      (if !(["RunROSNode", "UseLocalPX4", "PlanningCoordinateFrame",
            "LocalHostIP"].contains k) then
        .error (.assertionError "vehicle option name")
       else pure ())
      (if k == "RunROSNode" then do
        let sv ← sect.getItem k
        pyAssert sv.isinstanceBool "run ros type"
        let ks ← sect.pyKeys
        pyAssert (ks.contains "PlanningCoordinateFrame") "planning frame required"
       else pure ())
      (if k == "PlanningCoordinateFrame" then do
        let sv ← sect.getItem k
        pyAssert sv.isinstanceStr "planning frame type"
        let mem ← pyIn sv (.list [.str "NED", .str "ENU"])
        pyAssert mem "planning frame value"
       else pure ())
      (if k == "UseLocalPX4" then do
        let sv ← sect.getItem k
        pyAssert sv.isinstanceBool "px4 flag type"
       else pure ())
      (if k == "LocalHostIP" then
        match v with
        | .str s =>
          if ip_address_valid s then pure () else .error (.assertionError "host ip invalid")
        | _ => .error (.assertionError "host ip type")
       else pure ()))

/-- The StartingPosition section of one agent (lines 798-808). -/
def checkStartingPosition (sect : PyVal) : Except PyExc Unit := do
  let ks ← sect.pyKeys
  pyAssert (ks.contains "X" && ks.contains "Y" && ks.contains "Z")
    "starting position keys"
  let items ← sect.pyItems
  eachKV items (fun _k pos => do
    pyAssert (pos.typeName == "float") "starting position type"
    let gtB ← pyGtQ pos 999
    if gtB then .error (.assertionError "starting position range")
    else do
      let ltB ← pyLtQ pos (-999)
      if ltB then .error (.assertionError "starting position range") else pure ())

/-- The Controller section of one agent (lines 1154-1171). -/
def checkControllerSection (sect : PyVal) : Except PyExc Unit := do
  let items ← sect.pyItems
  eachKV items (fun csn cs => do
    (if !(["Name", "Gains"].contains csn) then .error (.assertionError "controller field")
     else pure ())
    (if csn == "Name" then pyAssert (pyEq cs (.str "SWARMBase")) "controller name"
     else pure ())
    (if csn == "Gains" then do
      let gitems ← cs.pyItems
      eachKV gitems (fun _gk gain => do
        pyAssert gain.isinstanceFloat "gain type"
        let ltB ← pyLtQ gain 0
        if ltB then .error (.assertionError "gain range")
        else do
          let gtB ← pyGtQ gain 20
          if gtB then .error (.assertionError "gain range") else pure ())
     else pure ()))

/-- Dispatch over the sections of one agent (lines 765-1173).  Any
violation in these branches raises and is only caught by the outermost
handler of validate_settings_file. -/
def checkAgentSectionItem (ctx : ClientCtx) (sf : List (String × PyVal)) (agent : String)
    (sectionName : String) (sect : PyVal) : Except PyExc Unit :=
  if sectionName == "Vehicle" then
    pyAssert (pyEq sect (.str "Multirotor")) "vehicle type"
  else if sectionName == "VehicleOptions" then checkVehicleOptions sect
  else if sectionName == "StartingPosition" then checkStartingPosition sect
  else if sectionName == "AutoPilot" then
    pyAssert (pyEq sect (.str "SWARM") || pyEq sect (.str "PX4")) "autopilot"
  else if sectionName == "Sensors" then checkSensorsSection sf agent sect
  else if sectionName == "Controller" then checkControllerSection sect
  else if sectionName == "SoftwareModules" then do
    let agents ← pyDictGet sf "Agents"
    let aOpts ← agents.getItem agent
    let sensors ← aOpts.getItem "Sensors"
    let _ ← validate_software_modules ctx sect sensors
    pure ()
  else pure ()

/-- One agent of the Agents section (lines 750-1173): the agent's
section set must equal the required seven sections exactly (compared as
sorted lists inside a try whose except returns False), then each section
is validated. -/
def checkOneAgent (ctx : ClientCtx) (sf : List (String × PyVal)) (agent : String)
    (agentOptions : PyVal) : Except PyExc Bool := do
  let c ← catchToFalse (fun _ => true) (do
    let ks ← agentOptions.pyKeys
    pyAssert (sortStrings ks == sortStrings
        ["Vehicle", "AutoPilot", "Sensors", "Controller", "SoftwareModules",
          "StartingPosition", "VehicleOptions"])
      "agent sections")
  if !c then pure false
  else do
    let items ← agentOptions.pyItems
    eachKV items (fun sn s => checkAgentSectionItem ctx sf agent sn s)
    pure true

/-- The loop over all agents; an agent whose section-set check returned
False aborts the walk with an overall False. -/
def agentsLoop (ctx : ClientCtx) (sf : List (String × PyVal)) :
    List (String × PyVal) → Except PyExc Bool
  | [] => pure true
  | (agent, aopts) :: rest => do
    let c ← checkOneAgent ctx sf agent aopts
    if c then agentsLoop ctx sf rest else pure false

/-- The Agents section (lines 738-1173): the agent count must lie in
[1, 5]; the count check sits in a try whose except catches everything
and returns False (a non-dict Agents value raises there too). -/
def checkAgentsSection (ctx : ClientCtx) (sf : List (String × PyVal)) (options : PyVal) :
    Except PyExc Bool :=
  match options with
  | .dict es =>
    if es.length < 1 || es.length > 5 then .ok false
    else agentsLoop ctx sf es
  | _ => .ok false

/-- The ID section (lines 601-607): must be an int; the assertion is
caught locally and turned into False. -/
def checkIDSection (options : PyVal) : Except PyExc Bool :=
  catchToFalse PyExc.isAssertionError (pyAssert options.isinstanceInt "id type")

/-- The raising body of the RunLength branch (lines 608-613): the
type assertion comes first, then the closed-interval containment
(30.0 to 9999) raises ValueError when violated. -/
def runLengthBody (options : PyVal) : Except PyExc Unit := do
  pyAssert (options.isinstanceInt || options.isinstanceFloat) "runlength type"
  let geB ← pyGeQ options 30
  let leB ← pyLeQ options 9999
  if !(geB && leB) then .error (.valueError "runlength range") else pure ()

/-- The RunLength section (lines 608-622): both the AssertionError and
the ValueError are caught locally and turned into False. -/
def checkRunLength (options : PyVal) : Except PyExc Bool :=
  catchToFalse (fun e => e.isAssertionError || e.isValueError) (runLengthBody options)

/-- The raising body of the Scenario branch (lines 623-655). -/
def scenarioBody (ctx : ClientCtx) (sf : List (String × PyVal)) (options : PyVal) :
    Except PyExc Unit := do
  let ks ← options.pyKeys
  (if !(ks == ["Name", "Options"]) then .error (.assertionError "scenario keys")
   else pure ())
  let name ← options.getItem "Name"
  (if !(validate_scenario_name ctx name) then .error (.assertionError "scenario name")
   else pure ())
  let opts ← options.getItem "Options"
  let hasLN ← pyIn (.str "LevelNames") opts
  (if hasLN then do
    let lns ← opts.getItem "LevelNames"
    let lvs ← pyIterate lns
    eachM lvs (fun ln => do
      let env ← pyDictGet sf "Environment"
      let envName ← env.getItem "Name"
      if !(validate_level_is_supported ctx envName ln) then
        .error (.assertionError "level unsupported")
      else pure ())
   else pure ())
  let hasML ← pyIn (.str "MultiLevel") opts
  (if hasML then do
    let ml ← opts.getItem "MultiLevel"
    if !ml.isinstanceBool then .error (.assertionError "multilevel type") else pure ()
   else pure ())
  let hasGP ← pyIn (.str "GoalPoint") opts
  (if hasGP then do
    let gp ← opts.getItem "GoalPoint"
    let gks ← gp.pyKeys
    let agents ← pyDictGet sf "Agents"
    let aks ← agents.pyKeys
    (if gks.length != aks.length then .error (.assertionError "goal count") else pure ())
    let gitems ← gp.pyItems
    eachKV gitems (fun _an goal =>
      match goal with
      | .dict ges =>
        if !((ges.map Prod.fst) == ["X", "Y", "Z"]) then
          .error (.assertionError "goal keys")
        else
          eachKV ges (fun _c cv => do
            pyAssert (cv.typeName == "float") "goal coord type"
            let ltB ← pyLtQ cv (-999)
            if ltB then .error (.assertionError "goal coord range")
            else do
              let gtB ← pyGtQ cv 999
              if gtB then .error (.assertionError "goal coord range") else pure ())
      | _ => .error (.assertionError "goal type"))
   else pure ())

/-- The Scenario section: only AssertionError is caught locally. -/
def checkScenarioSection (ctx : ClientCtx) (sf : List (String × PyVal)) (options : PyVal) :
    Except PyExc Bool :=
  catchToFalse PyExc.isAssertionError (scenarioBody ctx sf options)

/-- The raising body of the Environment branch (lines 659-680). -/
def environmentBody (ctx : ClientCtx) (sf : List (String × PyVal)) (options : PyVal) :
    Except PyExc Unit := do
  let ks ← options.pyKeys
  (if !(ks.contains "Name") then .error (.assertionError "environment name missing")
   else pure ())
  let name ← options.getItem "Name"
  (if !(validate_environment_name ctx name) then
    .error (.assertionError "environment name invalid")
   else pure ())
  let sv ← options.getItem "StreamVideo"
  (if !sv.isinstanceBool then .error (.assertionError "stream video type") else pure ())
  let sl ← options.getItem "StartingLevelName"
  (if !sl.isinstanceStr then .error (.assertionError "starting level type") else pure ())
  let scenDoc ← pyDictGet sf "Scenario"
  let scenOpts ← scenDoc.getItem "Options"
  let lns ← scenOpts.getItem "LevelNames"
  let mem ← pyIn sl lns
  (if !mem then .error (.assertionError "starting level not in scenario") else pure ())
  (if !(validate_level_is_supported ctx name sl) then
    .error (.assertionError "starting level unsupported")
   else pure ())
  validate_environment_options ctx options

/-- The Environment section: only AssertionError is caught locally. -/
def checkEnvironmentSection (ctx : ClientCtx) (sf : List (String × PyVal))
    (options : PyVal) : Except PyExc Bool :=
  catchToFalse PyExc.isAssertionError (environmentBody ctx sf options)

/-- Camera-name collection of the Video data check (lines 726-732): the
source also deduplicates the accumulated list, which cannot change any
membership test and is not modelled. -/
def collectCameraNames : List (String × PyVal) → Except PyExc (List String)
  | [] => .ok []
  | (_an, aopts) :: rest => do
    let sens ← aopts.getItem "Sensors"
    let sks ← sens.pyKeys
    if !(sks.contains "Cameras") then
      .error (.assertionError "cameras required for video")
    else do
      let cams ← sens.getItem "Cameras"
      let cks ← cams.pyKeys
      let restNames ← collectCameraNames rest
      .ok (cks ++ restNames)

/-- The raising body of the Data branch (lines 684-734). -/
def dataBody (sf : List (String × PyVal)) (options : PyVal) : Except PyExc Unit := do
  let items ← options.pyItems
  eachKV items (fun dt _v => do
    (if !(["Images", "VehicleState", "Video"].contains dt) then
      .error (.assertionError "data type")
     else pure ())
    (if dt == "Images" then do
      let img ← options.getItem "Images"
      let fmt ← img.getItem "Format"
      let fm ← pyIn fmt (.list [.str "PNG"])
      (if !fm then .error (.assertionError "image format") else pure ())
      let dsec ← options.getItem dt
      let dks ← dsec.pyKeys
      (if !(dks.contains "ImagesPerSecond") then
        .error (.assertionError "images per second missing")
       else pure ())
      let ips ← dsec.getItem "ImagesPerSecond"
      (if !ips.isinstanceInt then .error (.assertionError "images per second type")
       else pure ())
      let gtB ← pyGtQ ips 20
      let ltB ← pyLtQ ips 1
      (if gtB || ltB then .error (.assertionError "images per second range") else pure ())
     else pure ())
    (if dt == "Video" then do
      let vid ← options.getItem "Video"
      let vks ← vid.pyKeys
      (if !(vks.contains "Format") then .error (.assertionError "video format missing")
       else pure ())
      (if !(vks.contains "VideoName") then .error (.assertionError "video name missing")
       else pure ())
      (if !(vks.contains "CameraName") then .error (.assertionError "camera name missing")
       else pure ())
      let fmt ← vid.getItem "Format"
      let fm ← pyIn fmt (.list [.str "MP4"])
      (if !fm then .error (.assertionError "video format") else pure ())
      let vn ← vid.getItem "VideoName"
      (if !vn.isinstanceStr then .error (.assertionError "video name type") else pure ())
      let cn ← vid.getItem "CameraName"
      (if !cn.isinstanceStr then .error (.assertionError "camera name type") else pure ())
      let agents ← pyDictGet sf "Agents"
      let aitems ← agents.pyItems
      let names ← collectCameraNames aitems
      (if !(names.any (fun n => pyEq cn (.str n))) then
        .error (.assertionError "video camera unknown")
       else pure ())
     else pure ()))

/-- The Data section: only AssertionError is caught locally. -/
def checkDataSection (sf : List (String × PyVal)) (options : PyVal) :
    Except PyExc Bool :=
  catchToFalse PyExc.isAssertionError (dataBody sf options)

/-- Dispatch of the top-level section loop (lines 598-1173).  Keys with
no matching branch — including SimulationName and any unknown key — have
no validation and pass through. -/
def checkSection (ctx : ClientCtx) (sf : List (String × PyVal)) (key : String)
    (options : PyVal) : Except PyExc Bool :=
  if key == "ID" then checkIDSection options
  else if key == "RunLength" then checkRunLength options
  else if key == "Scenario" then checkScenarioSection ctx sf options
  else if key == "Environment" then checkEnvironmentSection ctx sf options
  else if key == "Data" then checkDataSection sf options
  else if key == "Agents" then checkAgentsSection ctx sf options
  else .ok true

/-- The section loop: a branch that returned False aborts the whole
validation with False; a raising branch propagates to the outer
handler. -/
def runSections (ctx : ClientCtx) (sf : List (String × PyVal)) :
    List (String × PyVal) → Except PyExc Bool
  | [] => .ok true
  | (k, v) :: rest => do
    let c ← checkSection ctx sf k v
    if c then runSections ctx sf rest else .ok false

/-- The value of the Python expression xs.sort(): list.sort sorts in
place and returns None. -/
inductive PyNoneVal where
  | mk
  deriving DecidableEq

def pyListSortRet (_xs : List String) : PyNoneVal := .mk

/-- The top-level structural check of lines 587-589 exactly as written:
assert list(settings_file.keys()).sort() == key_components.sort().
Both method calls return None, so the compared values are the two None
results — not the sorted lists. -/
def topLevelKeysCheck (userKeys reqKeys : List String) : Bool :=
  pyListSortRet userKeys == pyListSortRet reqKeys

/-- key_components of lines 581-584: the six required keys, plus Data
when the file has a Data key. -/
def requiredKeyComponents (sf : List (String × PyVal)) : List String :=
  ["ID", "RunLength", "SimulationName", "Scenario", "Environment", "Agents"] ++
    (if (sf.map Prod.fst).contains "Data" then ["Data"] else [])

/-- Everything inside the outermost try of validate_settings_file:
the top-level key-set assertion (whose failure would be converted to
False by its local except), then the section loop. -/
def settingsWalk (ctx : ClientCtx) (sf : List (String × PyVal)) : Except PyExc Bool :=
  if topLevelKeysCheck (sf.map Prod.fst) (requiredKeyComponents sf) then
    runSections ctx sf sf
  else .ok false

/-- swarm.py validate_settings_file: the walk wrapped in the outermost
try/except Exception, which converts every escaping exception into a
False return value. -/
def validate_settings_file (ctx : ClientCtx) (sf : List (String × PyVal)) : Bool :=
  match settingsWalk ctx sf with
  | .ok b => b
  | .error _ => false

/-- Rule resolution of vehicle_profile_validator.py _check_param_value
(lines 142-159): descend through the optional subsection and
sub-subsection names; a missing name yields the early (False, message)
return, modelled as none. -/
def resolveParamInfo (paramName : String) (validParams : PyVal)
    (subName subsubName : Option String) : Except PyExc (Option PyVal) :=
  match subName with
  | some sb => do
    let ks ← validParams.pyKeys
    if !(ks.contains sb) then .ok none
    else
      match subsubName with
      | some ssb => do
        let subD ← validParams.getItem sb
        let sks ← subD.pyKeys
        if !(sks.contains ssb) then .ok none
        else do
          let ssD ← subD.getItem ssb
          let pks ← ssD.pyKeys
          if !(pks.contains paramName) then .ok none
          else do
            let info ← ssD.getItem paramName
            .ok (some info)
      | none => do
        let subD ← validParams.getItem sb
        let pks ← subD.pyKeys
        if !(pks.contains paramName) then .ok none
        else do
          let info ← subD.getItem paramName
          .ok (some info)
  | none => do
    let ks ← validParams.pyKeys
    if !(ks.contains paramName) then .ok none
    else do
      let info ← validParams.getItem paramName
      .ok (some info)

/-- vehicle_profile_validator.py _check_param_value (lines 124-179):
name resolution, exact type-name equality, for numeric rules the closed
Min/Max interval plus an optional ValidEntries membership (both checks),
and for string rules membership in ValidEntries unless that list is
exactly the wildcard singleton.  An ok false models the (False, message)
tuple return. -/
def check_param_value (paramName : String) (paramValue : PyVal) (validParams : PyVal)
    (subName subsubName : Option String) : Except PyExc Bool := do
  let r ← resolveParamInfo paramName validParams subName subsubName
  match r with
  | none => .ok false
  | some info => do
    let t ← info.getItem "Type"
    if !(pyEq (.str paramValue.typeName) t) then .ok false
    else if pyEq t (.str "float") || pyEq t (.str "int") then do
      let mn ← info.getItem "Min"
      let ltB ← pyLtV paramValue mn
      if ltB then .ok false
      else do
        let mx ← info.getItem "Max"
        let gtB ← pyGtV paramValue mx
        if gtB then .ok false
        else do
          let iks ← info.pyKeys
          if iks.contains "ValidEntries" then do
            let entries ← info.getItem "ValidEntries"
            let mem ← pyIn paramValue entries
            if !mem then .ok false else .ok true
          else .ok true
    else if pyEq t (.str "str") then do
      let entries ← info.getItem "ValidEntries"
      if pyEq entries (.list [.str "*"]) then .ok true
      else do
        let mem ← pyIn paramValue entries
        if !mem then .ok false else .ok true
    else .ok true

/-! Concrete external documents used to instantiate the theorems:
a small supported-environments table, one supported scenario and a
supported-modules descriptor with one Planning module. -/

def sampleEnvBlocks : List (String × PyVal) :=
  [("EnvA", .dict [("Levels", .list [.str "L1"]), ("Options", .dict [])])]

def sampleSupportedModules : List (String × PyVal) :=
  [("Planning", .dict
      [("ValidClassNames", .list [.str "AStar"]),
       ("ValidParameters", .dict [("AStar", .dict
          [("speed", .dict [("type", .str "float"), ("range", .list [.float 0, .float 10])]),
           ("camera_name", .dict [("type", .str "str"), ("valid_entries", .list [.str "*"])]),
           ("flavor", .dict [("type", .str "str"), ("valid_entries", .list [.str "*"])])])]),
       ("ValidInputArgs", .dict [("AStar", .list [])]),
       ("ValidReturnValues", .dict [("AStar", .list [])]),
       ("ValidModuleParameters", .dict [])]),
   ("ValidModuleParameters",
     .list [.str "Algorithm", .str "Parameters", .str "Publishes", .str "Subscribes"]),
   ("ValidMessageTypes", .list [.str "Trajectory"])]

def sampleCtx : ClientCtx :=
  { scenarios := [.str "Search"], environments := sampleEnvBlocks,
    supportedModules := sampleSupportedModules, isLocal := true }

/-- The Algorithm-Parameters mapping rule used to exhibit the dict-branch
behaviour: two permitted fields, string values, a unit field range. -/
def mappingRuleSample : PyVal :=
  .dict [("valid_fields", .list [.str "allowed", .str "other"]),
         ("field_data_type", .str "str"),
         ("field_range", .list [.float 0, .float 1])]

/-- Unfolding lemmas for the Except monad, shared by the proofs below. -/
theorem except_ok_bind (a : α) (f : α → Except PyExc β) :
    (Except.ok a >>= f) = f a := rfl

theorem except_error_bind (e : PyExc) (f : α → Except PyExc β) :
    ((Except.error e : Except PyExc α) >>= f) = .error e := rfl

/-- C1: the top-level structural check of validate_settings_file
compares the None results of two in-place sort calls, so it can never
fail: it accepts every key set, and in particular the empty settings
file — missing all six required sections — passes the whole validation,
contradicting the claim that a wrong top-level key set is rejected by
this check. -/
theorem topLevel_key_check_never_fires :
    (∀ userKeys reqKeys : List String, topLevelKeysCheck userKeys reqKeys = true) ∧
      (∀ ctx : ClientCtx, validate_settings_file ctx [] = true) :=
  ⟨fun _ _ => rfl, fun _ => rfl⟩

/-- C2 counterexample: a complete LiDAR sensor whose vertical FOV pair
is inverted (upper bound -80.0 strictly below lower bound 40.0, each
value inside its own absolute range) passes the LiDAR validation, so the
paired-bound fields are not validated as ordered pairs. -/
theorem lidar_inverted_fov_pair_accepted :
    checkLidarSensor (.dict [("lidar1", .dict
      [("Enabled", .bool true), ("Method", .str "Colosseum"), ("X", .float 0),
       ("Y", .float 0), ("Z", .float 0),
       ("Settings", .dict [("VerticalFOVUpper", .float (-80)),
                           ("VerticalFOVLower", .float 40)]),
       ("Roll", .float 0), ("Pitch", .float 0), ("Yaw", .float 0),
       ("PublishingRate", .float 10), ("Hardware", .str "h")])]) = .ok () := rfl

/-- C3 counterexample: NumberOfChannels 16 — a value the accompanying
message calls valid — satisfies the comparison (16 is greater than 6)
and the check rejects it, refuting the claim that the comparison
evaluates false for every numeric value and never rejects. -/
theorem lidar_channels_rejects_sixteen :
    checkLidarSettings (.dict [("NumberOfChannels", .int 16)]) =
      .error (.assertionError "lidar channels") := rfl

/-- C3 amended: the comparison of the NumberOfChannels check (value
greater than 6 OR value less than 32) is a tautology over numbers, so
the check rejects every numeric NumberOfChannels value supplied in a
LiDAR Settings section: the accepting branch, not the error branch, is
unreachable. -/
theorem lidar_channels_comparison_tautology :
    ∀ v : PyVal, (v.isinstanceFloat || v.isinstanceInt) = true →
      checkLidarSettings (.dict [("NumberOfChannels", v)]) =
        .error (.assertionError "lidar channels") := by
  intro v h
  cases v with
  | float q =>
    by_cases h6 : (6 : Rat) < q
    · simp [checkLidarSettings, eachKV, pyGtQ, pyLtQ, PyVal.asNum?, h6,
        PyVal.pyItems, pyAssert, PyVal.isinstanceFloat, PyVal.isinstanceInt,
        Bind.bind, Except.bind, Pure.pure, Except.pure]
    · have h32 : q < 32 := lt_of_le_of_lt (not_lt.mp h6) (by norm_num)
      simp [checkLidarSettings, eachKV, pyGtQ, pyLtQ, PyVal.asNum?, h6, h32,
        PyVal.pyItems, pyAssert, PyVal.isinstanceFloat, PyVal.isinstanceInt,
        Bind.bind, Except.bind, Pure.pure, Except.pure]
  | int n =>
    by_cases h6 : (6 : Rat) < (n : Rat)
    · simp [checkLidarSettings, eachKV, pyGtQ, pyLtQ, PyVal.asNum?, h6,
        PyVal.pyItems, pyAssert, PyVal.isinstanceFloat, PyVal.isinstanceInt,
        Bind.bind, Except.bind, Pure.pure, Except.pure]
    · have h32 : (n : Rat) < 32 := lt_of_le_of_lt (not_lt.mp h6) (by norm_num)
      simp [checkLidarSettings, eachKV, pyGtQ, pyLtQ, PyVal.asNum?, h6, h32,
        PyVal.pyItems, pyAssert, PyVal.isinstanceFloat, PyVal.isinstanceInt,
        Bind.bind, Except.bind, Pure.pure, Except.pure]
  | bool b => cases b <;> rfl
  | str s => exact absurd h (by simp [PyVal.isinstanceFloat, PyVal.isinstanceInt])
  | pynone => exact absurd h (by simp [PyVal.isinstanceFloat, PyVal.isinstanceInt])
  | list xs => exact absurd h (by simp [PyVal.isinstanceFloat, PyVal.isinstanceInt])
  | dict es => exact absurd h (by simp [PyVal.isinstanceFloat, PyVal.isinstanceInt])

/-- C3 witness: the tautology instantiated at the numeric value 7.0. -/
theorem lidar_channels_comparison_tautology_witness :
    ((PyVal.float 7).isinstanceFloat || (PyVal.float 7).isinstanceInt) = true ∧
      checkLidarSettings (.dict [("NumberOfChannels", .float 7)]) =
        .error (.assertionError "lidar channels") :=
  ⟨rfl, lidar_channels_comparison_tautology (.float 7) rfl⟩

/-- C4: in the Algorithm-Parameters dict branch the membership test is
applied to the mapping VALUE, not the key: the mapping with the single
entry BadKey maps-to allowed — whose key is outside valid_fields but
whose value is inside — is accepted, while the module-level Parameters
dict branch (which does test the key) rejects the same input. -/
theorem algo_dict_branch_checks_value_not_key :
    algoParamsDictCheck mappingRuleSample (.dict [("BadKey", .str "allowed")]) = .ok () ∧
      moduleParamsDictCheck mappingRuleSample (.dict [("BadKey", .str "allowed")]) =
        .error (.assertionError "module dict key") :=
  ⟨rfl, rfl⟩

set_option maxHeartbeats 1000000 in
/-- C2 amended: the LiDAR vertical-FOV bounds are validated only
against their own independent absolute ranges (upper in [-85, 90],
lower in [-90, 85]), with no relation between the two; MinDistance and
MaxDistance are not LiDAR settings keys at all — a LiDAR Settings
section containing MinDistance = 5.0 and MaxDistance = 3.0 fails as an
unknown settings key; the inverted-pair MinDistance/MaxDistance check
lives in the Distance sensor, where MinDistance = 5.0 with
MaxDistance = 3.0 fails the ordered-pair comparison although each value
sits inside its own absolute range. -/
theorem lidar_bounds_independent_distance_paired :
    (∀ u l : Rat,
      checkLidarSettings (.dict [("VerticalFOVUpper", .float u),
          ("VerticalFOVLower", .float l)]) = .ok () ↔
        ((-85 ≤ u ∧ u ≤ 90) ∧ (-90 ≤ l ∧ l ≤ 85))) ∧
    checkLidarSettings (.dict [("MinDistance", .float 5), ("MaxDistance", .float 3)]) =
      .error (.assertionError "lidar settings key") ∧
    checkDistanceSensor (.dict [("d1", .dict
      [("Enabled", .bool true), ("Method", .str "Colosseum"), ("X", .float 0),
       ("Y", .float 0), ("Z", .float 0), ("Roll", .float 0), ("Pitch", .float 0),
       ("Yaw", .float 0), ("PublishingRate", .float 10),
       ("MinDistance", .float 5), ("MaxDistance", .float 3)])]) =
      .error (.assertionError "distance min") := by
  refine ⟨?_, rfl, ?_⟩
  · intro u l
    by_cases hu1 : (90 : Rat) < u <;>
      by_cases hu2 : u < (-85 : Rat) <;>
        by_cases hl1 : l < (-90 : Rat) <;>
          by_cases hl2 : (85 : Rat) < l <;>
            simp [checkLidarSettings, eachKV, PyVal.pyItems, Bind.bind, Except.bind,
              Pure.pure, Except.pure, pyFloat, PyVal.asNum?, pyAssert, PyVal.isinstanceFloat,
              PyVal.isinstanceInt, hu1, hu2, hl1, hl2] <;>
            exact ⟨⟨by linarith, by linarith⟩, by linarith, by linarith⟩
  · simp +decide [checkDistanceSensor, eachKV, PyVal.pyItems, PyVal.pyKeys, sortStrings,
      charListLe, List.insertionSort, List.orderedInsert, pyAssert, floatRangeCheck,
      pyLtQ, pyGtQ, pyGeV, pyLeV, PyVal.asNum?, PyVal.isinstanceFloat, PyVal.getItem,
      pyDictGet, validate_publishing_Rate, Bind.bind, Except.bind, Pure.pure, Except.pure]

/-- C8: the RunLength check accepts exactly the closed interval
[30, 9999] on floats — in particular 30.0 and 9999.0 pass while 29.999
and 9999.01 fail — and a non-numeric value fails the type assertion
first, before any range comparison. -/
theorem runlength_closed_interval :
    (∀ q : Rat, checkRunLength (.float q) = .ok true ↔ (30 ≤ q ∧ q ≤ 9999)) ∧
    checkRunLength (.float 30) = .ok true ∧
    checkRunLength (.float 29.999) = .ok false ∧
    checkRunLength (.float 9999) = .ok true ∧
    checkRunLength (.float 9999.01) = .ok false ∧
    (∀ v : PyVal, v.isinstanceInt = false → v.isinstanceFloat = false →
      runLengthBody v = .error (.assertionError "runlength type") ∧
        checkRunLength v = .ok false) := by
  have eval29 : checkRunLength (.float 29.999) = .ok false := by
    norm_num [checkRunLength, runLengthBody, catchToFalse, pyGeQ, pyLeQ, PyVal.asNum?,
      pyAssert, PyVal.isinstanceFloat, PyVal.isinstanceInt, PyExc.isAssertionError,
      PyExc.isValueError, Bind.bind, Except.bind, Pure.pure, Except.pure]
  have eval9999 : checkRunLength (.float 9999.01) = .ok false := by
    norm_num [checkRunLength, runLengthBody, catchToFalse, pyGeQ, pyLeQ, PyVal.asNum?,
      pyAssert, PyVal.isinstanceFloat, PyVal.isinstanceInt, PyExc.isAssertionError,
      PyExc.isValueError, Bind.bind, Except.bind, Pure.pure, Except.pure]
  refine ⟨?_, rfl, eval29, rfl, eval9999, ?_⟩
  · intro q
    by_cases h1 : (30 : Rat) ≤ q <;>
      by_cases h2 : q ≤ (9999 : Rat) <;>
        simp [checkRunLength, runLengthBody, catchToFalse, pyGeQ, pyLeQ, PyVal.asNum?,
          pyAssert, PyVal.isinstanceFloat, PyVal.isinstanceInt, PyExc.isAssertionError,
          PyExc.isValueError, Bind.bind, Except.bind, Pure.pure, Except.pure, h1, h2]
  · intro v h1 h2
    refine ⟨?_, ?_⟩ <;>
      simp [checkRunLength, runLengthBody, catchToFalse, pyAssert, h1, h2,
        PyExc.isAssertionError, Bind.bind, Except.bind, Pure.pure, Except.pure]

/-- C8 witness: the non-numeric clause instantiated at a string value. -/
theorem runlength_closed_interval_witness :
    (PyVal.str "fast").isinstanceInt = false ∧
    (PyVal.str "fast").isinstanceFloat = false ∧
    (runLengthBody (.str "fast") = .error (.assertionError "runlength type") ∧
      checkRunLength (.str "fast") = .ok false) :=
  ⟨rfl, rfl, runlength_closed_interval.2.2.2.2.2 (.str "fast") rfl rfl⟩

end SwarmSpec

namespace SwarmSpec

/-- Helper: a module whose Algorithm Level resolves to the int 3 passes
checkModule whenever its name is a descriptor key, whatever else its
settings contain. -/
theorem checkModule_level_three (ctx : ClientCtx) (sensors : PyVal) (name : String)
    (settings a : PyVal)
    (h1 : (ctx.supportedModules.map Prod.fst).contains name = true)
    (h2 : settings.getItem "Algorithm" = .ok a)
    (h3 : a.getItem "Level" = .ok (.int 3)) :
    checkModule ctx sensors name settings = .ok () := by
  simp [checkModule, h1, h2, h3, Bind.bind, Except.bind, Pure.pure, Except.pure,
    pyEq, PyVal.isinstanceInt, PyVal.asNum?]
  have h1m : name ∈ ctx.supportedModules.map Prod.fst := by simpa using h1
  obtain ⟨⟨n2, v⟩, hmem, hfst⟩ := List.mem_map.mp h1m
  simp only at hfst
  subst hfst
  exact ⟨v, hmem⟩

/-- Helper: the module loop succeeds when every module is a supported
Level-3 module. -/
theorem modulesLoop_level_three (ctx : ClientCtx) (sensors : PyVal)
    (mods : List (String × PyVal))
    (h : ∀ p ∈ mods, (ctx.supportedModules.map Prod.fst).contains p.1 = true ∧
      ∃ a, p.2.getItem "Algorithm" = .ok a ∧ a.getItem "Level" = .ok (.int 3)) :
    eachKV mods (fun mn s => checkModule ctx sensors mn s) = .ok () := by
  induction mods with
  | nil => rfl
  | cons p rest ih =>
    obtain ⟨hc, a, ha, hl⟩ := h p (List.mem_cons_self p rest)
    have hp : checkModule ctx sensors p.1 p.2 = .ok () :=
      checkModule_level_three ctx sensors p.1 p.2 a hc ha hl
    have hrest := ih (fun q hq => h q (List.mem_cons_of_mem p hq))
    cases p with
    | mk mn s =>
      simp only [eachKV, Bind.bind, Except.bind] at hp ⊢
      rw [hp]
      exact hrest


/-- C5: a software module whose Algorithm Level equals 3 skips every
class-name and parameter check — only the module-name membership and the
Level validity test are applied, and the quantification over arbitrary
further settings content shows nothing else is consulted; the overall
validate_software_modules run returns success when every module is such
a module. -/
theorem level_three_skips_module_checks :
    (∀ (ctx : ClientCtx) (sensors : PyVal) (name : String) (settings a : PyVal),
      (ctx.supportedModules.map Prod.fst).contains name = true →
      settings.getItem "Algorithm" = .ok a →
      a.getItem "Level" = .ok (.int 3) →
      checkModule ctx sensors name settings = .ok ()) ∧
    (∀ (ctx : ClientCtx) (sensors : PyVal) (mods : List (String × PyVal)),
      (∀ p ∈ mods, (ctx.supportedModules.map Prod.fst).contains p.1 = true ∧
        ∃ a, p.2.getItem "Algorithm" = .ok a ∧ a.getItem "Level" = .ok (.int 3)) →
      validate_software_modules ctx (.dict mods) sensors = .ok true) := by
  refine ⟨checkModule_level_three, ?_⟩
  intro ctx sensors mods h
  have hloop := modulesLoop_level_three ctx sensors mods h
  simp [validate_software_modules, PyVal.pyItems, Bind.bind, Except.bind, Pure.pure,
    Except.pure, hloop]

def levelThreeSettings : PyVal :=
  .dict [("Algorithm", .dict [("Level", .int 3)]), ("Junk", .bool true)]

/-- C5 witness: a Planning module carrying Level 3 plus junk settings
passes, alone and as a whole module list. -/
theorem level_three_skips_module_checks_witness :
    checkModule sampleCtx (.dict []) "Planning" levelThreeSettings = .ok () ∧
      validate_software_modules sampleCtx
        (.dict [("Planning", levelThreeSettings)]) (.dict []) = .ok true := by
  constructor
  · exact level_three_skips_module_checks.1 sampleCtx (.dict []) "Planning"
      levelThreeSettings (.dict [("Level", .int 3)]) rfl rfl rfl
  · refine level_three_skips_module_checks.2 sampleCtx (.dict []) _ ?_
    intro p hp
    simp only [List.mem_singleton] at hp
    subst hp
    exact ⟨rfl, .dict [("Level", .int 3)], rfl, rfl⟩


/-- Helper: an error of the camera-existence check propagates out of the
camera_name parameter check, whatever the enum rule says. -/
theorem camera_declared_part (ctx : ClientCtx) (sensors settings validParams rule : PyVal)
    (v : String) (ks : List String) (e : PyExc)
    (h1 : validParams.pyKeys = .ok ks) (h2 : ks.contains "camera_name" = true)
    (h3 : validParams.getItem "camera_name" = .ok rule)
    (h4 : rule.getItem "type" = .ok (.str "str"))
    (hcam : validate_camera_stream_settings (.str v) sensors = .error e) :
    checkAlgoParam ctx sensors settings validParams "camera_name" (.str v) = .error e := by
  simp [checkAlgoParam, algoStringParamCheck, h1, h2, h3, h4, hcam, pyEq,
    PyVal.typeName, Bind.bind, Except.bind, Pure.pure, Except.pure]
  intro habs
  exact absurd (by simpa using h2) habs

/-- Helper: when the camera-existence check passes, an error of the
subscription check propagates out of the camera_name parameter check. -/
theorem camera_subscribed_part (ctx : ClientCtx) (sensors settings validParams rule : PyVal)
    (v : String) (ks : List String) (b : Bool) (e : PyExc)
    (h1 : validParams.pyKeys = .ok ks) (h2 : ks.contains "camera_name" = true)
    (h3 : validParams.getItem "camera_name" = .ok rule)
    (h4 : rule.getItem "type" = .ok (.str "str"))
    (hcam : validate_camera_stream_settings (.str v) sensors = .ok b)
    (hsub : validate_camera_subscription (.str v) settings = .error e) :
    checkAlgoParam ctx sensors settings validParams "camera_name" (.str v) = .error e := by
  simp [checkAlgoParam, algoStringParamCheck, h1, h2, h3, h4, hcam, hsub, pyEq,
    PyVal.typeName, Bind.bind, Except.bind, Pure.pure, Except.pure]
  intro habs
  exact absurd (by simpa using h2) habs

/-- Helper: without a Cameras sensor section the camera-existence check
raises. -/
theorem camera_missing_section_part (ses : List (String × PyVal)) (v : String)
    (h : (ses.map Prod.fst).contains "Cameras" = false) :
    validate_camera_stream_settings (.str v) (.dict ses) =
      .error (.assertionError "cameras section missing") := by
  have h' : "Cameras" ∉ ses.map Prod.fst := by simpa using h
  simp [validate_camera_stream_settings, PyVal.pyKeys, Bind.bind, Except.bind,
    Pure.pure, Except.pure]
  intro x hx
  exact absurd (List.mem_map_of_mem Prod.fst hx) h'

/-- Helper: with a Cameras section lacking the referenced name the
camera-existence check raises. -/
theorem camera_not_listed_part (ses cams : List (String × PyVal)) (v : String)
    (h1 : (ses.map Prod.fst).contains "Cameras" = true)
    (h2 : pyDictGet ses "Cameras" = .ok (.dict cams))
    (h3 : ((cams.map Prod.fst).any (fun k => pyEq (.str v) (.str k))) = false) :
    validate_camera_stream_settings (.str v) (.dict ses) =
      .error (.assertionError "camera not listed") := by
  have h1' : "Cameras" ∈ ses.map Prod.fst := by simpa using h1
  have h3' : ∀ k ∈ cams.map Prod.fst, pyEq (.str v) (.str k) = false := by
    simpa [List.any_eq_true] using h3
  simp [validate_camera_stream_settings, PyVal.pyKeys, PyVal.getItem, h1', h2, h3',
    Bind.bind, Except.bind, Pure.pure, Except.pure]
  intro x y hxy
  exact h3' x (List.mem_map_of_mem Prod.fst hxy)


/-- C9: a string field whose resolved valid-entries list is exactly the
wildcard singleton passes with any string value whatsoever: in the
software-module Algorithm parameter evaluator (for every parameter other
than camera_name, whose separate cross-field camera checks still run
first) no enum membership test is applied, and in the vehicle physics
profile evaluator any string value returns valid. -/
theorem wildcard_entries_accept_any_string :
    (∀ (ctx : ClientCtx) (sensors settings validParams rule : PyVal) (p : String)
        (ks : List String) (v : String),
      validParams.pyKeys = .ok ks → ks.contains p = true →
      validParams.getItem p = .ok rule →
      rule.getItem "type" = .ok (.str "str") →
      effectiveValidEntries ctx p rule = .ok (.list [.str "*"]) →
      p ≠ "camera_name" →
      checkAlgoParam ctx sensors settings validParams p (.str v) = .ok ()) ∧
    (∀ (vp info : PyVal) (pn v : String),
      resolveParamInfo pn vp none none = .ok (some info) →
      info.getItem "Type" = .ok (.str "str") →
      info.getItem "ValidEntries" = .ok (.list [.str "*"]) →
      check_param_value pn (.str v) vp none none = .ok true) := by
  constructor
  · intro ctx sensors settings validParams rule p ks v h1 h2 h3 h4 heff hne
    have hb : (p == "camera_name") = false := beq_eq_false_iff_ne.mpr hne
    have h2m : p ∈ ks := by simpa using h2
    simp [checkAlgoParam, algoStringParamCheck, validEntriesWildcard, h1, h2m, h3, h4,
      heff, hb, pyLen, pySubscriptNat, pyEq, PyVal.typeName, Bind.bind, Except.bind,
      Pure.pure, Except.pure]
  · intro vp info pn v hres hT hE
    simp [check_param_value, hres, hT, hE, pyEq, pyEqList, PyVal.typeName,
      Bind.bind, Except.bind, Pure.pure, Except.pure]

/-- Helper: a section list containing an Agents entry with six agents
can never make the section loop return ok true. -/
theorem runSections_agents_six (ctx : ClientCtx) (sf : List (String × PyVal))
    (agents : List (String × PyVal)) (hlen : agents.length = 6) :
    ∀ l : List (String × PyVal), ("Agents", PyVal.dict agents) ∈ l →
      runSections ctx sf l ≠ .ok true := by
  intro l hmem
  induction l with
  | nil => cases hmem
  | cons p rest ih =>
    rcases List.mem_cons.mp hmem with heq | hrest
    · subst heq
      have hsec : checkSection ctx sf "Agents" (.dict agents) = .ok false := by
        simp [checkSection, checkAgentsSection, hlen]
      simp [runSections, hsec, Bind.bind, Except.bind]
    · cases p with
      | mk k v =>
        cases hc : checkSection ctx sf k v with
        | error e => simp [runSections, hc, Bind.bind, Except.bind]
        | ok b =>
          cases b
          · simp [runSections, hc, Bind.bind, Except.bind]
          · simp [runSections, hc, Bind.bind, Except.bind]
            exact ih hrest

/-- C7: every settings file whose Agents section holds six agent
entries is rejected by validate_settings_file — the count check fires
before any per-agent validation, regardless of the agents' contents or
of any other section. -/
theorem six_agents_rejected :
    ∀ (ctx : ClientCtx) (sf : List (String × PyVal)) (agents : List (String × PyVal)),
      ("Agents", PyVal.dict agents) ∈ sf → agents.length = 6 →
      validate_settings_file ctx sf = false := by
  intro ctx sf agents hmem hlen
  have h := runSections_agents_six ctx sf agents hlen sf hmem
  unfold validate_settings_file settingsWalk
  cases hr : runSections ctx sf sf with
  | ok b =>
    cases b
    · simp [topLevelKeysCheck, hr]
    · exact absurd hr h
  | error e => simp [topLevelKeysCheck, hr]

def sixAgentsDoc : List (String × PyVal) :=
  [("Agents", .dict [("A1", .int 0), ("A2", .int 0), ("A3", .int 0), ("A4", .int 0),
    ("A5", .int 0), ("A6", .int 0)])]

/-- C7 witness: a six-agent document is rejected. -/
theorem six_agents_rejected_witness :
    validate_settings_file sampleCtx sixAgentsDoc = false :=
  six_agents_rejected sampleCtx sixAgentsDoc
    [("A1", .int 0), ("A2", .int 0), ("A3", .int 0), ("A4", .int 0),
      ("A5", .int 0), ("A6", .int 0)] (by simp [sixAgentsDoc]) rfl

/-- C10: validate_settings_file always returns a boolean, it returns
true exactly when the inner walk completes with ok true, and every
exception the walk raises is converted by the outermost handler into a
False return value. -/
theorem validate_total_and_catches :
    ∀ (ctx : ClientCtx) (sf : List (String × PyVal)),
      (validate_settings_file ctx sf = true ∨ validate_settings_file ctx sf = false) ∧
      (validate_settings_file ctx sf = true ↔ settingsWalk ctx sf = .ok true) ∧
      (∀ e, settingsWalk ctx sf = .error e → validate_settings_file ctx sf = false) := by
  intro ctx sf
  refine ⟨?_, ?_, ?_⟩
  · rcases Bool.eq_false_or_eq_true (validate_settings_file ctx sf) with h | h
    · exact Or.inl h
    · exact Or.inr h
  · unfold validate_settings_file
    cases h : settingsWalk ctx sf with
    | ok b => cases b <;> simp
    | error e => simp
  · intro e he
    unfold validate_settings_file
    rw [he]

def envOnlyDoc : List (String × PyVal) := [("Environment", .dict [("Name", .str "EnvA")])]

/-- C10 witness: a document whose Environment section lacks StreamVideo
raises a KeyError deep inside the walk (past the local AssertionError
handler), and the result is False. -/
theorem validate_total_and_catches_witness :
    settingsWalk sampleCtx envOnlyDoc = .error (.keyError "StreamVideo") ∧
      validate_settings_file sampleCtx envOnlyDoc = false :=
  ⟨rfl, (validate_total_and_catches sampleCtx envOnlyDoc).2.2 (.keyError "StreamVideo") rfl⟩

/-- C6: a software-module string parameter named camera_name is checked
against the agent's declared cameras and against the module's Subscribes
list — both cross-field checks run before, and independently of, any
enumeration check on the value (the rule's entries never appear in the
hypotheses): any error of the camera-existence check aborts the
parameter validation, and when that check passes, any error of the
subscription check aborts it; the existence check itself fails whenever
the Cameras sensor section is absent or does not list the name. -/
theorem camera_name_requires_declared_and_subscribed :
    (∀ (ctx : ClientCtx) (sensors settings validParams rule : PyVal)
        (v : String) (ks : List String) (e : PyExc),
      validParams.pyKeys = .ok ks → ks.contains "camera_name" = true →
      validParams.getItem "camera_name" = .ok rule →
      rule.getItem "type" = .ok (.str "str") →
      validate_camera_stream_settings (.str v) sensors = .error e →
      checkAlgoParam ctx sensors settings validParams "camera_name" (.str v) =
        .error e) ∧
    (∀ (ctx : ClientCtx) (sensors settings validParams rule : PyVal)
        (v : String) (ks : List String) (b : Bool) (e : PyExc),
      validParams.pyKeys = .ok ks → ks.contains "camera_name" = true →
      validParams.getItem "camera_name" = .ok rule →
      rule.getItem "type" = .ok (.str "str") →
      validate_camera_stream_settings (.str v) sensors = .ok b →
      validate_camera_subscription (.str v) settings = .error e →
      checkAlgoParam ctx sensors settings validParams "camera_name" (.str v) =
        .error e) ∧
    (∀ (ses : List (String × PyVal)) (v : String),
      (ses.map Prod.fst).contains "Cameras" = false →
      validate_camera_stream_settings (.str v) (.dict ses) =
        .error (.assertionError "cameras section missing")) ∧
    (∀ (ses cams : List (String × PyVal)) (v : String),
      (ses.map Prod.fst).contains "Cameras" = true →
      pyDictGet ses "Cameras" = .ok (.dict cams) →
      ((cams.map Prod.fst).any (fun k => pyEq (.str v) (.str k))) = false →
      validate_camera_stream_settings (.str v) (.dict ses) =
        .error (.assertionError "camera not listed")) :=
  ⟨camera_declared_part, camera_subscribed_part, camera_missing_section_part,
    camera_not_listed_part⟩

/-- The camera_name rule set of the witnesses below. -/
def camRules : PyVal :=
  .dict [("camera_name", .dict [("type", .str "str"),
    ("valid_entries", .list [.str "*"])])]

/-- C6 witness: the parameter fails when no Cameras section exists, and
fails on the missing subscription when the camera is declared but the
Subscribes list is empty. -/
theorem camera_name_requires_declared_and_subscribed_witness :
    checkAlgoParam sampleCtx (.dict [("GPS", .dict [])]) (.dict []) camRules
        "camera_name" (.str "front") =
      .error (.assertionError "cameras section missing") ∧
    checkAlgoParam sampleCtx (.dict [("Cameras", .dict [("front", .dict [])])])
        (.dict [("Subscribes", .list [])]) camRules "camera_name" (.str "front") =
      .error (.assertionError "camera not subscribed") := by
  constructor
  · exact camera_name_requires_declared_and_subscribed.1 sampleCtx _ _ camRules _
      "front" ["camera_name"] _ rfl rfl rfl rfl
      (camera_name_requires_declared_and_subscribed.2.2.1 [("GPS", .dict [])]
        "front" rfl)
  · exact camera_name_requires_declared_and_subscribed.2.1 sampleCtx _ _ camRules _
      "front" ["camera_name"] true _ rfl rfl rfl rfl rfl rfl

/-- The AStar parameter rule set of the wildcard witness. -/
def astarRules : PyVal :=
  .dict [("speed", .dict [("type", .str "float"), ("range", .list [.float 0, .float 10])]),
         ("camera_name", .dict [("type", .str "str"), ("valid_entries", .list [.str "*"])]),
         ("flavor", .dict [("type", .str "str"), ("valid_entries", .list [.str "*"])])]

/-- C9 witness: the wildcard-ruled flavor parameter accepts a string
absent from every enumerated list, in both evaluators. -/
theorem wildcard_entries_accept_any_string_witness :
    checkAlgoParam sampleCtx (.dict []) (.dict []) astarRules "flavor" (.str "zzz") =
      .ok () ∧
    check_param_value "p" (.str "whatever")
        (.dict [("p", .dict [("Type", .str "str"), ("ValidEntries", .list [.str "*"])])])
        none none = .ok true := by
  constructor
  · exact wildcard_entries_accept_any_string.1 sampleCtx (.dict []) (.dict [])
      astarRules (.dict [("type", .str "str"), ("valid_entries", .list [.str "*"])])
      "flavor" ["speed", "camera_name", "flavor"] "zzz" rfl rfl rfl rfl rfl (by decide)
  · exact wildcard_entries_accept_any_string.2 _
      (.dict [("Type", .str "str"), ("ValidEntries", .list [.str "*"])])
      "p" "whatever" rfl rfl rfl

end SwarmSpec
